import Mathlib

/-!
Verification of the greeting/arithmetic utility (src/app.py) of
jenkins-demo-python-app.

The module is dynamically typed Python, so the embedding carries an explicit
universe of runtime values (`PyVal`: integers and strings) and of runtime
errors (`PyError`: ValueError, which the spec calls `InvalidArgument`, and
TypeError, the spec's boundary-level `TypeMismatch`).  The Python operators
`+` and `*` on those values are modelled by `pyPlus` and `pyTimes`, following
CPython semantics on ints and strs; the module's functions `greet`, `add`,
`multiply` and `main` are translated on top of them.
-/

namespace JenkinsDemo

/-- Runtime values flowing through the module: the demo only ever passes
integers and strings to its functions. -/
inductive PyVal where
  | int (n : ℤ)
  | str (s : String)
  deriving DecidableEq, Repr

/-- Runtime errors.  `valueError` is raised explicitly by `greet` (the spec's
`InvalidArgument` kind); `typeError` is the runtime's reaction to operand
types that do not support the operator (the spec's boundary-level
`TypeMismatch`), never raised by the module's own code. -/
inductive PyError where
  | valueError (msg : String)
  | typeError (msg : String)
  deriving DecidableEq, Repr

/-- Python string repetition `s * n` for a non-negative count `n`
(CPython returns the empty string for counts at or below zero). -/
def strRepeat (s : String) : Nat → String
  | 0 => ""
  | Nat.succ n => s ++ strRepeat s n

/-- Python's binary `+` on the embedded values: integer addition on two ints,
concatenation on two strings, and a TypeError on any mixed pair. -/
def pyPlus : PyVal → PyVal → Except PyError PyVal
  | PyVal.int a, PyVal.int b => Except.ok (PyVal.int (a + b))
  | PyVal.str a, PyVal.str b => Except.ok (PyVal.str (a ++ b))
  | _, _ => Except.error (PyError.typeError "unsupported operand types for +")

/-- Python's binary `*` on the embedded values: integer multiplication on two
ints, sequence repetition between a string and an int (in either operand
order, with negative counts clamped to zero as CPython does), and a TypeError
on two strings. -/
def pyTimes : PyVal → PyVal → Except PyError PyVal
  | PyVal.int a, PyVal.int b => Except.ok (PyVal.int (a * b))
  | PyVal.str s, PyVal.int n => Except.ok (PyVal.str (strRepeat s n.toNat))
  | PyVal.int n, PyVal.str s => Except.ok (PyVal.str (strRepeat s n.toNat))
  | _, _ => Except.error (PyError.typeError "unsupported operand types for *")

/-- Python's `str()` of an embedded value, as f-string interpolation applies
it in `main`. -/
def pyStr : PyVal → String
  | PyVal.int n => toString n
  | PyVal.str s => s

/-- The function `greet` of src/app.py:
`if not name: raise ValueError("Name cannot be empty")`, else return
`f"Hello, {name}!"`.  For a Python string, `not name` is true exactly when
the string is empty. -/
def greet (name : String) : Except PyError String :=
  if name.isEmpty then
    Except.error (PyError.valueError "Name cannot be empty")
  else
    Except.ok ("Hello, " ++ name ++ "!")

/-- The function `add` of src/app.py: `return a + b`, duck-typed over any
operands the runtime's `+` accepts. -/
def add (a b : PyVal) : Except PyError PyVal := pyPlus a b

/-- The function `multiply` of src/app.py: `return a * b`, duck-typed over
any operands the runtime's `*` accepts. -/
def multiply (a b : PyVal) : Except PyError PyVal := pyTimes a b

/-- The banner line `main` prints first. -/
def banner : String := "🚀 Jenkins Demo Python App"

/-- The function `main` of src/app.py, modelled as the list of lines printed
to standard output, in order, paired with the uncaught error if one was
raised.  The banner is printed before any operation runs; each later line is
printed only once the operation producing it has returned. -/
def main : List String × Option PyError :=
  match greet "Jenkins" with
  | Except.error e => ([banner], some e)
  | Except.ok g =>
    match add (PyVal.int 2) (PyVal.int 3) with
    | Except.error e => ([banner, g], some e)
    | Except.ok a =>
      match multiply (PyVal.int 4) (PyVal.int 5) with
      | Except.error e => ([banner, g, "2 + 3 = " ++ pyStr a], some e)
      | Except.ok m =>
        ([banner, g, "2 + 3 = " ++ pyStr a, "4 * 5 = " ++ pyStr m], none)

/-- Helper: `strRepeat s n` is the concatenation of `n` copies of `s`. -/
theorem strRepeat_eq_join (s : String) (n : Nat) :
    strRepeat s n = String.join (List.replicate n s) := by
  induction n with
  | zero => rfl
  | succ n ih =>
    apply String.ext
    simp [strRepeat, String.join_eq, List.replicate_succ, ih]

/-- C1: for every non-empty name string `n`, `greet n` returns exactly
`"Hello, " ++ n ++ "!"` with `n` substituted verbatim, and raises no error. -/
theorem greet_nonempty_format (n : String) (h : n ≠ "") :
    greet n = Except.ok ("Hello, " ++ n ++ "!") := by
  simp [greet, String.isEmpty_iff, h]

/-- Witness for C1 at the concrete name `"John"`. -/
theorem greet_nonempty_format_witness :
    ("John" : String) ≠ "" ∧ greet "John" = Except.ok ("Hello, " ++ "John" ++ "!") :=
  ⟨by decide, greet_nonempty_format "John" (by decide)⟩

/-- C2: `greet` raises the ValueError (the spec's `InvalidArgument`) carrying
the message "Name cannot be empty" exactly when the name is empty, and raises
no error at all on any non-empty name. -/
theorem greet_error_iff (n : String) :
    (greet n = Except.error (PyError.valueError "Name cannot be empty") ↔ n = "") ∧
    ((∃ e, greet n = Except.error e) ↔ n = "") := by
  by_cases h : n = "" <;> simp [greet, String.isEmpty_iff, h]

/-- C3: on every pair of integers, `add` returns exactly their mathematical
sum. -/
theorem add_int_sum (a b : ℤ) :
    add (PyVal.int a) (PyVal.int b) = Except.ok (PyVal.int (a + b)) := rfl

/-- C4: on every pair of integers, `multiply` returns exactly their
mathematical product, signs included. -/
theorem multiply_int_prod (a b : ℤ) :
    multiply (PyVal.int a) (PyVal.int b) = Except.ok (PyVal.int (a * b)) := rfl

/-- C5: zero is absorbing for `multiply` on integers, on either side. -/
theorem multiply_zero_absorbs (x : ℤ) :
    multiply (PyVal.int x) (PyVal.int 0) = Except.ok (PyVal.int 0) ∧
    multiply (PyVal.int 0) (PyVal.int x) = Except.ok (PyVal.int 0) := by
  constructor <;> simp [multiply, pyTimes]

/-- C6: `add` is commutative on integers. -/
theorem add_int_comm (a b : ℤ) :
    add (PyVal.int a) (PyVal.int b) = add (PyVal.int b) (PyVal.int a) := by
  simp [add, pyPlus, Int.add_comm a b]

/-- C7: `greet` does not trim: every non-empty name made only of whitespace
is accepted without error and substituted verbatim into the greeting. -/
theorem greet_whitespace_verbatim (n : String) (h : n ≠ "")
    (_hw : ∀ c ∈ n.data, c.isWhitespace) :
    greet n = Except.ok ("Hello, " ++ n ++ "!") := by
  simp [greet, String.isEmpty_iff, h]

/-- Witness for C7 at the single-space name. -/
theorem greet_whitespace_verbatim_witness :
    (" " : String) ≠ "" ∧ (∀ c ∈ (" " : String).data, c.isWhitespace) ∧
    greet " " = Except.ok ("Hello, " ++ " " ++ "!") :=
  ⟨by decide, by decide, greet_whitespace_verbatim " " (by decide) (by decide)⟩

/-- C8: `add` is duck-typed beyond numbers: on every pair of strings it
returns their concatenation. -/
theorem add_str_concat (s t : String) :
    add (PyVal.str s) (PyVal.str t) = Except.ok (PyVal.str (s ++ t)) := rfl

/-- C9: `main` runs the greeting with the literal name "Jenkins", then the
addition on the literals 2 and 3, then the multiplication on the literals 4
and 5, each succeeding, and the printed lines are the banner, the greeting
result, the addition line and the multiplication line, in that order, with no
error. -/
theorem main_output :
    ∃ g a m, greet "Jenkins" = Except.ok g ∧
      add (PyVal.int 2) (PyVal.int 3) = Except.ok a ∧
      multiply (PyVal.int 4) (PyVal.int 5) = Except.ok m ∧
      main = ([banner, g, "2 + 3 = " ++ pyStr a, "4 * 5 = " ++ pyStr m], none) :=
  ⟨"Hello, " ++ "Jenkins" ++ "!", PyVal.int (2 + 3), PyVal.int (4 * 5),
    rfl, rfl, rfl, rfl⟩

/-- C10: `multiply` is duck-typed beyond numbers: a string times a natural
number yields the concatenation of that many copies of the string. -/
theorem multiply_str_repeat (s : String) (n : Nat) :
    multiply (PyVal.str s) (PyVal.int n) =
      Except.ok (PyVal.str (String.join (List.replicate n s))) := by
  simp [multiply, pyTimes, strRepeat_eq_join]

end JenkinsDemo
